import Mathlib

/-!
Verification of the connection/job-execution core of the `dbt-bigquery`
adapter (`src/dbt/adapters/bigquery/connections.py`), shallowly embedded in
Lean 4.  Pure helpers (`format_bytes`, `format_rows_number`, `_is_retryable`,
`_ErrorCounter.count_error`) are translated directly; the stateful retry loop
and the job-submission flow are modelled as explicit state passing over
scripts of attempt outcomes, with an event trace recording registration,
submission, connection close/open, sleeps and retry logging.
-/

namespace DbtBigQuery

/-- One item of a Google API error's `errors` list: a dict with at least a
`reason` and a `message` key, as accessed by `_is_retryable` and
`handle_error`. -/
structure ErrItem where
  reason : String
  message : String
deriving DecidableEq, Repr

/-- The exception classes that appear in `connections.py`, flattened into one
inductive.  The Python class hierarchy (`BadGateway < ServerError`,
`DbtDatabaseError < DbtRuntimeError`) is reflected in the `isinstance`
predicates below rather than in the constructors. -/
inductive GError where
  /-- Python class `google.cloud.exceptions.ServerError` (5xx base class) -/
  | serverError (errors : List ErrItem)
  /-- Python class `google.cloud.exceptions.BadGateway` (502, subclass of ServerError) -/
  | badGateway (errors : List ErrItem)
  /-- Python class `google.cloud.exceptions.BadRequest` (400) -/
  | badRequest (errors : List ErrItem)
  /-- Python class `google.cloud.exceptions.Forbidden` (403) -/
  | forbidden (errors : List ErrItem)
  /-- Python class `google.cloud.exceptions.NotFound` (404) -/
  | notFound (errors : List ErrItem)
  /-- builtin `ConnectionResetError` -/
  | connectionResetError (msg : String)
  /-- Python class `requests.exceptions.ConnectionError` -/
  | requestsConnectionError (msg : String)
  /-- Python class `concurrent.futures.TimeoutError` -/
  | timeoutError (msg : String)
  /-- Python class `google.auth.exceptions.RefreshError` -/
  | refreshError (msg : String)
  /-- Python class `dbt_common.exceptions.DbtRuntimeError` -/
  | dbtRuntimeError (msg : String)
  /-- Python class `dbt_common.exceptions.DbtDatabaseError` (subclass of DbtRuntimeError) -/
  | dbtDatabaseError (msg : String)
  /-- any other exception -/
  | otherError (msg : String)
deriving DecidableEq, Repr

/-- The check `isinstance(error, REOPENABLE_ERRORS)` for
`REOPENABLE_ERRORS = (ConnectionResetError, ConnectionError)` where
`ConnectionError` is `requests.exceptions.ConnectionError`. -/
def isinstanceReopenable : GError → Bool
  | .connectionResetError _ => true
  | .requestsConnectionError _ => true
  | _ => false

/-- The check `isinstance(error, RETRYABLE_ERRORS)` for
`RETRYABLE_ERRORS = (ServerError, BadRequest, BadGateway,
ConnectionResetError, ConnectionError)`.  `BadGateway` is a subclass of
`ServerError`, so it matches either way. -/
def isinstanceRetryable : GError → Bool
  | .serverError _ => true
  | .badGateway _ => true
  | .badRequest _ => true
  | .connectionResetError _ => true
  | .requestsConnectionError _ => true
  | _ => false

/-- The predicate `_is_retryable(error)`: true if the error is an instance of
`RETRYABLE_ERRORS`, or is a `Forbidden` one of whose error items has reason
`rateLimitExceeded`. -/
def _is_retryable (error : GError) : Bool :=
  if isinstanceRetryable error then true
  else
    match error with
    | .forbidden errs => errs.any fun it => it.reason == "rateLimitExceeded"
    | _ => false

/-- The mutable state of `_ErrorCounter`: the configured `retries` (an `int`
in Python) and the running `error_count`. -/
structure _ErrorCounter where
  retries : Int
  error_count : Nat
deriving DecidableEq, Repr

/-- The method `_ErrorCounter.count_error(error)`: with `retries == 0` return `False`
without counting or logging; otherwise increment `error_count` and return
`True` (logging a retry attempt) exactly when the error is retryable and the
count is still within `retries`.  Returns the predicate value and the updated
counter; the boolean also tells whether the retry log line was emitted. -/
def count_error (c : _ErrorCounter) (error : GError) : Bool × _ErrorCounter :=
  if c.retries = 0 then (false, c)
  else
    let c' : _ErrorCounter := ⟨c.retries, c.error_count + 1⟩
    if _is_retryable error && decide ((c'.error_count : Int) ≤ c.retries) then (true, c')
    else (false, c')

/-! ### Byte and row-count formatting (`format_bytes`, `format_rows_number`)

The numbers flowing through the formatters start as integers from the API
and are divided by the exact constants `1024.0` / `1000.0`; they are modelled
as exact fractions with positive denominator (float rounding error is not
modelled).  `f"{x:3.1f}"` is modelled as round-half-even to one decimal
digit; the width-3 minimum of `%3.1f` never pads, because a one-decimal
rendering is at least three characters long. -/

/-- An exact fraction `num / den` with `den > 0` by construction, standing in
for a Python float. -/
structure PyFloat where
  num : Int
  den : Int
deriving DecidableEq, Repr

namespace PyFloat

/-- Embed an integer. -/
def ofInt (n : Int) : PyFloat := ⟨n, 1⟩

/-- Comparison `x < y` (valid because denominators are positive). -/
def lt (x y : PyFloat) : Bool := decide (x.num * y.den < y.num * x.den)

/-- Negation. -/
def neg (x : PyFloat) : PyFloat := ⟨-x.num, x.den⟩

/-- Division by a positive integer constant (`/ 1024.0`, `/ 1000.0`). -/
def divByPos (x : PyFloat) (k : Int) : PyFloat := ⟨x.num, x.den * k⟩

/-- Multiplication by a positive integer constant (`* 1024.0`, `* 10`). -/
def mulByPos (x : PyFloat) (k : Int) : PyFloat := ⟨x.num * k, x.den⟩

/-- Python `abs`. -/
def pyAbs (x : PyFloat) : PyFloat := if x.lt (ofInt 0) then x.neg else x

end PyFloat

/-- Round `x` to the nearest integer, ties to the even integer (the rounding
used when a float is formatted with one decimal digit). -/
def roundHalfEven (x : PyFloat) : Int :=
  let f := x.num.fdiv x.den
  let rnum := x.num - f * x.den
  if 2 * rnum < x.den then f
  else if x.den < 2 * rnum then f + 1
  else if f % 2 = 0 then f else f + 1

/-- Python `f"{x:3.1f}"`: one decimal digit, minimum width 3 (the padding
never fires for a digit-point-digit rendering). -/
def fmtF31 (x : PyFloat) : String :=
  let t : Int := roundHalfEven (x.mulByPos 10)
  let sign := if t < 0 then "-" else ""
  let a := t.natAbs
  sign ++ toString (a / 10) ++ "." ++ toString (a % 10)

/-- Python `str.strip()`: drop leading and trailing whitespace. -/
def pyStrip (s : String) : String :=
  String.mk (((s.data.dropWhile Char.isWhitespace).reverse.dropWhile
    Char.isWhitespace).reverse)

/-- The unit list walked by `format_bytes`. -/
def byteUnits : List String := ["Bytes", "KiB", "MiB", "GiB", "TiB", "PiB"]

/-- The loop of `format_bytes`: divide by 1024 stepping through the units
until the magnitude is below 1024; if the units run out, multiply back by
1024 and use the last unit (`PiB`). -/
def format_bytes_loop (x : PyFloat) : List String → String
  | [] => fmtF31 (x.mulByPos 1024) ++ " PiB"
  | u :: us =>
    if x.pyAbs.lt (.ofInt 1024) then fmtF31 x ++ " " ++ u
    else format_bytes_loop (x.divByPos 1024) us

/-- The value `format_bytes` returns: Python gives back the argument itself
(`None` or the integer `0`) when it is falsy, and a formatted string
otherwise. -/
inductive BytesFormatted where
  | raw (v : Option Int)
  | str (s : String)
deriving DecidableEq, Repr

/-- The function `format_bytes(num_bytes)`: `if num_bytes:` is false for `None` and `0`,
returning the argument unchanged; otherwise the unit loop runs. -/
def format_bytes (num_bytes : Option Int) : BytesFormatted :=
  match num_bytes with
  | none => .raw none
  | some x =>
    if x = 0 then .raw (some x)
    else .str (format_bytes_loop (.ofInt x) byteUnits)

/-- The unit list walked by `format_rows_number`. -/
def rowUnits : List String := ["", "k", "m", "b", "t"]

/-- The loop of `format_rows_number`: divide by 1000 stepping through the
units until the magnitude is below 1000, then `.strip()` the rendering; if
the units run out, multiply back by 1000 and use the last unit (`t`). -/
def format_rows_number_loop (x : PyFloat) : List String → String
  | [] => pyStrip (fmtF31 (x.mulByPos 1000) ++ "t")
  | u :: us =>
    if x.pyAbs.lt (.ofInt 1000) then pyStrip (fmtF31 x ++ u)
    else format_rows_number_loop (x.divByPos 1000) us

/-- The function `format_rows_number(rows_number)`: the argument is the integer row count
reported by the API. -/
def format_rows_number (rows_number : Int) : String :=
  format_rows_number_loop (.ofInt rows_number) rowUnits

/-! ### Response building (`execute`, `dry_run`) -/

/-- Python `f"{v}"` for an optional string (`None` renders as `"None"`). -/
def pyStrOptStr : Option String → String
  | some s => s
  | none => "None"

/-- Python `f"{v}"` for the heterogeneous value `format_bytes` returns. -/
def pyStrFormatted : BytesFormatted → String
  | .str s => s
  | .raw none => "None"
  | .raw (some n) => toString n

/-- The fields of a completed `google.cloud.bigquery` query job that
`execute` and `dry_run` read, together with the row count of the job's
destination table (`client.get_table(query_job.destination).num_rows`),
which `execute` fetches for `CREATE_TABLE_AS_SELECT` and `SELECT`
statements. -/
structure QueryJobInfo where
  statement_type : String
  destination_num_rows : Option Int
  num_dml_affected_rows : Option Int
  total_bytes_processed : Option Int
  total_bytes_billed : Option Int
  slot_millis : Option Int
  location : Option String
  job_id : Option String
  project : Option String
deriving DecidableEq, Repr

/-- A dynamically typed Python value stored in the `bytes_processed` field of
the response: `execute` stores the raw integer byte count, while `dry_run`
stores whatever `format_bytes` returned (a string for a truthy count). -/
inductive PyBytesVal where
  | int (n : Int)
  | str (s : String)
  | pyNone
deriving DecidableEq, Repr

/-- The dataclass `BigQueryAdapterResponse` restricted to the fields the core populates
(`_message` is called `message` here). -/
structure BigQueryAdapterResponse where
  message : String
  rows_affected : Option Int
  code : Option String
  bytes_processed : PyBytesVal
  bytes_billed : Option Int
  location : Option String
  project_id : Option String
  job_id : Option String
  slot_ms : Option Int
deriving DecidableEq, Repr

/-- The statement-kind dispatch of `execute`: the `code` string and the
`num_rows` selected per statement type.  An unrecognised statement type
leaves both at `None`. -/
def execute_code_rows (j : QueryJobInfo) : Option String × Option Int :=
  if j.statement_type = "CREATE_VIEW" then (some ("CREATE VIEW"), none)
  else if j.statement_type = "CREATE_TABLE_AS_SELECT" then
    (some ("CREATE TABLE"), j.destination_num_rows)
  else if j.statement_type = "SCRIPT" then (some ("SCRIPT"), none)
  else if j.statement_type ∈ ["INSERT", "DELETE", "MERGE", "UPDATE"] then
    (some j.statement_type, j.num_dml_affected_rows)
  else if j.statement_type = "SELECT" then (some ("SELECT"), j.destination_num_rows)
  else (none, none)

/-- The message built by `execute`: with a known row count,
`f"{code} ({num_rows_formatted} rows, {processed_bytes} processed)"`; else
with a known byte count, `f"{code} ({processed_bytes} processed)"`; else
`f"{code}"`. -/
def execute_message (j : QueryJobInfo) : String :=
  let processed := pyStrFormatted (format_bytes j.total_bytes_processed)
  match (execute_code_rows j).2 with
  | some n =>
    pyStrOptStr (execute_code_rows j).1 ++ " (" ++ format_rows_number n
      ++ " rows, " ++ processed ++ " processed)"
  | none =>
    match j.total_bytes_processed with
    | some _ => pyStrOptStr (execute_code_rows j).1 ++ " (" ++ processed ++ " processed)"
    | none => pyStrOptStr (execute_code_rows j).1

/-- The response `execute` builds from a completed query job:
`bytes_processed` holds the raw integer count
(`query_job.total_bytes_processed`), and the formatted byte string appears
only inside the message. -/
def execute_response (j : QueryJobInfo) : BigQueryAdapterResponse where
  message := execute_message j
  rows_affected := (execute_code_rows j).2
  code := (execute_code_rows j).1
  bytes_processed :=
    match j.total_bytes_processed with
    | some n => .int n
    | none => .pyNone
  bytes_billed := j.total_bytes_billed
  location := j.location
  project_id := j.project
  job_id := j.job_id
  slot_ms := j.slot_millis

/-- The response `dry_run` builds: code `"DRY RUN"`, no row count, and
`bytes_processed := self.format_bytes(query_job.total_bytes_processed)` —
the human-formatted value, not the raw count. -/
def dry_run_response (j : QueryJobInfo) : BigQueryAdapterResponse where
  message := "Ran dry run query for statement of type " ++ j.statement_type
  rows_affected := none
  code := some ("DRY RUN")
  bytes_processed :=
    match format_bytes j.total_bytes_processed with
    | .str s => .str s
    | .raw none => .pyNone
    | .raw (some n) => .int n
  bytes_billed := j.total_bytes_billed
  location := j.location
  project_id := j.project
  job_id := j.job_id
  slot_ms := j.slot_millis

/-! ### The exception handler -/

/-- The delimiter after which the BigQuery client appends the query log. -/
def BQ_QUERY_JOB_SPLIT : String := "-----Query Job SQL Follows-----"

/-- The classmethod `handle_error`: joins the `message` of every item of the error's `errors`
list with newlines and raises `DbtDatabaseError` with that text. -/
def handle_error_msg (errs : List ErrItem) : String :=
  String.intercalate ("\n") (errs.map (·.message))

/-- The remediation text prepended by the `RefreshError` branch of
`exception_handler`. -/
def refreshErrorMessage (msg : String) : String :=
  "Unable to generate access token, if you are using "
    ++ "impersonate_service_account, make sure your "
    ++ "initial account has the \"roles/"
    ++ "iam.serviceAccountTokenCreator\" role on the "
    ++ "account you are trying to impersonate.\n\n" ++ msg

/-- Python `str(e)` for the modelled exceptions: google API errors render
their joined error messages, the rest carry their message directly. -/
def strOfError : GError → String
  | .serverError errs => handle_error_msg errs
  | .badGateway errs => handle_error_msg errs
  | .badRequest errs => handle_error_msg errs
  | .forbidden errs => handle_error_msg errs
  | .notFound errs => handle_error_msg errs
  | .connectionResetError m => m
  | .requestsConnectionError m => m
  | .timeoutError m => m
  | .refreshError m => m
  | .dbtRuntimeError m => m
  | .dbtDatabaseError m => m
  | .otherError m => m

/-- The truncation of the generic branch: if the message embeds the query-log
delimiter, keep only the part before it, stripped. -/
def splitTruncate (s : String) : String :=
  if (s.splitOn BQ_QUERY_JOB_SPLIT).length > 1 then
    pyStrip ((s.splitOn BQ_QUERY_JOB_SPLIT).headD (""))
  else s

/-- The context manager `exception_handler(sql)`: translates exceptions escaping the wrapped
block.  `BadRequest`, `Forbidden` and `NotFound` go through `handle_error`
and come out as `DbtDatabaseError`; `RefreshError` becomes `DbtRuntimeError`
with remediation text; a `DbtRuntimeError` (hence also `DbtDatabaseError`)
is re-raised unchanged; anything else is wrapped into `DbtRuntimeError` with
its message truncated at the query-log delimiter. -/
def exception_handler : Except GError α → Except GError α
  | .ok a => .ok a
  | .error e =>
    match e with
    | .badRequest errs => .error (.dbtDatabaseError (handle_error_msg errs))
    | .forbidden errs => .error (.dbtDatabaseError (handle_error_msg errs))
    | .notFound errs => .error (.dbtDatabaseError (handle_error_msg errs))
    | .refreshError m => .error (.dbtRuntimeError (refreshErrorMessage m))
    | .dbtRuntimeError m => .error (.dbtRuntimeError m)
    | .dbtDatabaseError m => .error (.dbtDatabaseError m)
    | e' => .error (.dbtRuntimeError (splitTruncate (strOfError e')))

/-! ### `_query_and_results` -/

/-- The outcomes of the two remote calls inside `_query_and_results`: the
submission `client.query(...)` (bounded by the creation timeout) and the wait
`query_job.result(...)` (bounded by the execution timeout, surfacing a
`TimeoutError` when exceeded). -/
structure QueryScript where
  submit : Except GError Unit
  wait : Except GError Unit
deriving Repr

/-- Python `f"{v}"` for an `Optional[int]` (`None` renders as `"None"`). -/
def pyStrOptInt : Option Int → String
  | some n => toString n
  | none => "None"

/-- The message of the `TimeoutError` re-raised by `_query_and_results`,
interpolating the configured execution timeout. -/
def timeoutMsg (job_execution_timeout : Option Int) : String :=
  "Operation did not complete within the designated timeout of "
    ++ pyStrOptInt job_execution_timeout ++ " seconds."

/-- The method `_query_and_results`: submit the job, then wait for the result;
a `TimeoutError` from the wait is re-raised as a `TimeoutError` carrying the
configured execution timeout, every other exception propagates unchanged. -/
def _query_and_results (s : QueryScript) (job_execution_timeout : Option Int) :
    Except GError Unit :=
  match s.submit with
  | .error e => .error e
  | .ok _ =>
    match s.wait with
    | .ok _ => .ok ()
    | .error e =>
      match e with
      | .timeoutError _ => .error (.timeoutError (timeoutMsg job_execution_timeout))
      | e' => .error e'

/-! ### The retry loop (`_retry_and_handle` / `retry.retry_target`)

The loop itself lives in `google.api_core.retry`, outside this repository;
it is modelled from the spec: try the operation; on failure consult the
predicate (here `_ErrorCounter.count_error`, which logs exactly when it
returns true) and re-raise when it refuses; otherwise run `on_error` (here
`reopen_conn_on_error`, closing and reopening the connection for reopenable
errors), stop once the elapsed time would pass the deadline, sleep the next
backoff value and try again.  Attempt outcomes, per-failure elapsed times and
the sleep schedule are supplied as scripts; the infinite sleep generator is
cut off by a fuel parameter large enough to never run out under the attempt
bound.  The trace records job-id registration, submission calls,
connection close/open, sleeps and retry logging. -/

/-- One observable step of the execution. -/
inductive Event where
  | register (id : Nat)
  | submitCall (id : Nat)
  | closeConn
  | openConn
  | sleep (d : ℚ)
  | retryLog
deriving DecidableEq, Repr

/-- The hook `reopen_conn_on_error(error)`: close then reopen the thread's connection
exactly when the error is an instance of `REOPENABLE_ERRORS`, otherwise do
nothing. -/
def reopen_conn_on_error (error : GError) : List Event :=
  if isinstanceReopenable error then [.closeConn, .openConn] else []

/-- The generator `_retry_generator()`: exponential backoff starting at
`DEFAULT_INITIAL_DELAY = 1.0`, doubling, capped at
`DEFAULT_MAXIMUM_DELAY = 3.0`. -/
def sleepSchedule (n : Nat) : ℚ := min ((1 : ℚ) * 2 ^ n) 3

/-- Whether the deadline check stops the loop before the next sleep. -/
def deadlineStop (elapsed sleeps : Nat → ℚ) (dl : Option ℚ) (i : Nat) : Bool :=
  match dl with
  | none => false
  | some d => decide (d < elapsed i + sleeps i)

/-- The result of a retry loop run: the event trace, the number of attempts
performed, and the final outcome (`ok` carries the index of the successful
attempt). -/
structure RetryRun where
  events : List Event
  attempts : Nat
  result : Except GError Nat
deriving Repr

/-- Modelled from the spec: the bounded-retry executor
(`google.api_core.retry.retry_target`, §4.3 of the spec), instantiated with
the source's predicate `count_error` and on-error hook
`reopen_conn_on_error`.  `tEv i` is the event trace of attempt `i` itself
(for `raw_execute`, register-then-submit), `outcomes i` its failure if any,
`fuel` bounds the loop. -/
def retry_target (tEv : Nat → List Event) (outcomes : Nat → Option GError)
    (sleeps elapsed : Nat → ℚ) (dl : Option ℚ) :
    Nat → Nat → _ErrorCounter → RetryRun
  | 0, _, _ => ⟨[], 0, .error (.otherError ("sleep generator exhausted"))⟩
  | fuel + 1, i, c =>
    match outcomes i with
    | none => ⟨tEv i, 1, .ok i⟩
    | some e =>
      if (count_error c e).1 then
        let ev := tEv i ++ [Event.retryLog] ++ reopen_conn_on_error e
        if deadlineStop elapsed sleeps dl i then ⟨ev, 1, .error e⟩
        else
          let rest := retry_target tEv outcomes sleeps elapsed dl fuel (i + 1)
            (count_error c e).2
          ⟨ev ++ [Event.sleep (sleeps i)] ++ rest.events, rest.attempts + 1, rest.result⟩
      else ⟨tEv i, 1, .error e⟩

/-- The method `_retry_and_handle(msg, conn, fn)`: run the retry loop with a fresh
`_ErrorCounter` over the connection's configured retries and deadline, inside
`exception_handler`. -/
def _retry_and_handle (tEv : Nat → List Event) (outcomes : Nat → Option GError)
    (elapsed : Nat → ℚ) (retries : Int) (dl : Option ℚ) (fuel : Nat) : RetryRun :=
  let r := retry_target tEv outcomes sleepSchedule elapsed dl fuel 0 ⟨retries, 0⟩
  { r with result := exception_handler r.result }

/-! ### `generate_job_id` and `raw_execute`

`generate_job_id` draws a fresh `uuid4`, appends it to
`self.jobs_by_thread[thread_id]` and returns it.  The uuid supply is
modelled as a counter handing out distinct identifiers (the contract of
`uuid4`); one calling thread's registry entry is modelled. -/

/-- The calling thread's slice of the connection manager state: its
`jobs_by_thread` entry and the fresh-id supply. -/
structure ThreadState where
  jobs_by_thread : List Nat
  next_id : Nat
deriving DecidableEq, Repr

/-- The method `generate_job_id()`: draw a fresh id, append it to the thread's registry
entry, return it. -/
def generate_job_id (st : ThreadState) : Nat × ThreadState :=
  (st.next_id, ⟨st.jobs_by_thread ++ [st.next_id], st.next_id + 1⟩)

/-- The state update of one `generate_job_id` call. -/
def applyGenerate (st : ThreadState) : ThreadState := (generate_job_id st).2

/-- The event trace of one attempt of the function `fn` retried by
`raw_execute`: `fn` first calls `generate_job_id` (which appends the fresh
id to the registry — the `register` event) and only then calls
`_query_and_results`, whose `client.query` issues the submission call. -/
def rawExecuteEvents (i : Nat) : List Event :=
  [.register i, .submitCall i]

/-- The method `raw_execute`: the retried operation regenerates a job id on every
attempt, so attempt `i` registers and then submits id `i`. -/
def raw_execute_run (outcomes : Nat → Option GError) (sleeps elapsed : Nat → ℚ)
    (dl : Option ℚ) (retries : Int) (fuel : Nat) : RetryRun :=
  retry_target rawExecuteEvents outcomes sleeps elapsed dl fuel 0 ⟨retries, 0⟩

/-- The job ids registered in the thread's `jobs_by_thread` entry over a
trace, in order: the `register` events are exactly the appends performed by
`generate_job_id`. -/
def registryOf (evs : List Event) : List Nat :=
  evs.filterMap fun e =>
    match e with
    | .register id => some id
    | _ => none

/-- Every submission call in a trace is preceded (strictly earlier) by the
registration of the same job id. -/
@[reducible] def SubmitCovered (evs : List Event) : Prop :=
  ∀ (p jid : Nat), evs[p]? = some (Event.submitCall jid) →
    ∃ q, q < p ∧ evs[q]? = some (Event.register jid)

/-! ### `cancel_open` -/

/-- The remote call `client.cancel_job(job_id)`: succeeds when the remote service knows the
job, raises `NotFound` otherwise. -/
def cancel_job_call (remoteJobs : List String) (job_id : String) : Except GError Unit :=
  if job_id ∈ remoteJobs then .ok ()
  else .error (.notFound [⟨"notFound", "Not found: Job " ++ job_id⟩])

/-- View an `Except` outcome as the retry loop's attempt outcome. -/
def outcomeOf : Except GError Unit → Option GError
  | .ok _ => none
  | .error e => some e

/-- One iteration of the `cancel_open` sweep for one registered job id:
`self._retry_and_handle(msg=f"Cancel job: {job_id}", conn, fn)` with
`fn = lambda: client.cancel_job(job_id)`. -/
def cancel_open_cancel_job (retries : Int) (dl : Option ℚ) (remoteJobs : List String)
    (job_id : String) (fuel : Nat) : Except GError Nat :=
  (_retry_and_handle (fun _ => []) (fun _ => outcomeOf (cancel_job_call remoteJobs job_id))
    (fun _ => 0) retries dl fuel).result

/-- The inner loop of `cancel_open` over one thread's registered job ids:
each id is cancelled in turn; an exception raised by `_retry_and_handle`
propagates out of `cancel_open` and aborts the sweep. -/
def cancel_open_thread_jobs (retries : Int) (dl : Option ℚ) (remoteJobs : List String)
    (fuel : Nat) : List String → Except GError Unit
  | [] => .ok ()
  | j :: js =>
    match cancel_open_cancel_job retries dl remoteJobs j fuel with
    | .error e => .error e
    | .ok _ => cancel_open_thread_jobs retries dl remoteJobs fuel js

/-! ### Lemmas about `count_error` and the retry loop -/

theorem count_error_fst_false (c : _ErrorCounter) (e : GError)
    (h : _is_retryable e = false) : (count_error c e).1 = false := by
  unfold count_error
  split
  · rfl
  · simp [h]

theorem count_error_true_elim (c : _ErrorCounter) (e : GError)
    (h : (count_error c e).1 = true) :
    _is_retryable e = true ∧ (c.error_count + 1 : Int) ≤ c.retries ∧
      (count_error c e).2 = ⟨c.retries, c.error_count + 1⟩ := by
  unfold count_error at h ⊢
  by_cases h0 : c.retries = 0
  · simp [h0] at h
  · simp only [if_neg h0] at h ⊢
    revert h
    cases hr : _is_retryable e with
    | false => intro h; simp at h
    | true =>
      intro h
      by_cases hd : ((c.error_count + 1 : Int) ≤ c.retries)
      · exact ⟨rfl, hd, by simp [hd]⟩
      · simp [hd] at h

section RetryLemmas

variable (tEv : Nat → List Event) (outcomes : Nat → Option GError)
variable (sleeps elapsed : Nat → ℚ) (dl : Option ℚ)

/-- Branch equation: no fuel left. -/
theorem retry_target_zero (i : Nat) (c : _ErrorCounter) :
    retry_target tEv outcomes sleeps elapsed dl 0 i c =
      ⟨[], 0, .error (.otherError ("sleep generator exhausted"))⟩ := rfl

/-- Branch equation: the attempt succeeds. -/
theorem retry_target_none (n i : Nat) (c : _ErrorCounter)
    (h : outcomes i = none) :
    retry_target tEv outcomes sleeps elapsed dl (n + 1) i c = ⟨tEv i, 1, .ok i⟩ := by
  simp only [retry_target, h]

/-- Branch equation: the attempt fails and the predicate refuses a retry;
the failure is re-raised as is. -/
theorem retry_target_refuse (n i : Nat) (c : _ErrorCounter) (e : GError)
    (h : outcomes i = some e) (hp : (count_error c e).1 = false) :
    retry_target tEv outcomes sleeps elapsed dl (n + 1) i c = ⟨tEv i, 1, .error e⟩ := by
  simp only [retry_target, h]
  simp [hp]

/-- Branch equation: the attempt fails, the predicate accepts, but the
deadline check stops the loop (after the on-error hook already ran). -/
theorem retry_target_stop (n i : Nat) (c : _ErrorCounter) (e : GError)
    (h : outcomes i = some e) (hp : (count_error c e).1 = true)
    (hd : deadlineStop elapsed sleeps dl i = true) :
    retry_target tEv outcomes sleeps elapsed dl (n + 1) i c =
      ⟨tEv i ++ [Event.retryLog] ++ reopen_conn_on_error e, 1, .error e⟩ := by
  simp only [retry_target, h]
  simp [hp, hd]

/-- Branch equation: the attempt fails, the predicate accepts, the deadline
check passes; the loop sleeps and retries. -/
theorem retry_target_go (n i : Nat) (c : _ErrorCounter) (e : GError)
    (h : outcomes i = some e) (hp : (count_error c e).1 = true)
    (hd : deadlineStop elapsed sleeps dl i = false) :
    retry_target tEv outcomes sleeps elapsed dl (n + 1) i c =
      ⟨tEv i ++ [Event.retryLog] ++ reopen_conn_on_error e ++ [Event.sleep (sleeps i)]
          ++ (retry_target tEv outcomes sleeps elapsed dl n (i + 1) (count_error c e).2).events,
        (retry_target tEv outcomes sleeps elapsed dl n (i + 1) (count_error c e).2).attempts + 1,
        (retry_target tEv outcomes sleeps elapsed dl n (i + 1) (count_error c e).2).result⟩ := by
  simp only [retry_target, h]
  simp [hp, hd]

/-- The loop performs at most `retries - error_count + 1` further attempts:
every retried failure increments the counter, and the predicate refuses once
the counter passes `retries`. -/
theorem retry_target_attempts_bound :
    ∀ (fuel i : Nat) (c : _ErrorCounter),
      (retry_target tEv outcomes sleeps elapsed dl fuel i c).attempts
        ≤ (c.retries.toNat - c.error_count) + 1 := by
  intro fuel
  induction fuel with
  | zero => intro i c; rw [retry_target_zero]; simp
  | succ n ih =>
    intro i c
    cases h0 : outcomes i with
    | none =>
      rw [retry_target_none tEv outcomes sleeps elapsed dl n i c h0]
      simp
    | some e =>
      cases hp : (count_error c e).1 with
      | false =>
        rw [retry_target_refuse tEv outcomes sleeps elapsed dl n i c e h0 hp]
        simp
      | true =>
        cases hd : deadlineStop elapsed sleeps dl i with
        | true =>
          rw [retry_target_stop tEv outcomes sleeps elapsed dl n i c e h0 hp hd]
          simp
        | false =>
          rw [retry_target_go tEv outcomes sleeps elapsed dl n i c e h0 hp hd]
          obtain ⟨-, hle, hc2⟩ := count_error_true_elim c e hp
          have hrec := ih (i + 1) (count_error c e).2
          rw [hc2] at hrec ⊢
          simp at hrec ⊢
          omega

/-- Between any two consecutive attempts, the deadline check passed: the
loop never sleeps into territory past the deadline. -/
theorem retry_target_deadline (d : ℚ) :
    ∀ (fuel i : Nat) (c : _ErrorCounter) (k : Nat),
      k + 1 < (retry_target tEv outcomes sleeps elapsed (some d) fuel i c).attempts →
      elapsed (i + k) + sleeps (i + k) ≤ d := by
  intro fuel
  induction fuel with
  | zero => intro i c k h; rw [retry_target_zero] at h; simp at h
  | succ n ih =>
    intro i c k h
    cases h0 : outcomes i with
    | none =>
      rw [retry_target_none tEv outcomes sleeps elapsed (some d) n i c h0] at h
      simp at h
    | some e =>
      cases hp : (count_error c e).1 with
      | false =>
        rw [retry_target_refuse tEv outcomes sleeps elapsed (some d) n i c e h0 hp] at h
        simp at h
      | true =>
        cases hd : deadlineStop elapsed sleeps (some d) i with
        | true =>
          rw [retry_target_stop tEv outcomes sleeps elapsed (some d) n i c e h0 hp hd] at h
          simp at h
        | false =>
          rw [retry_target_go tEv outcomes sleeps elapsed (some d) n i c e h0 hp hd] at h
          simp only at h
          cases k with
          | zero =>
            have hnd : ¬ d < elapsed i + sleeps i := by
              simpa [deadlineStop] using hd
            simpa using le_of_not_lt hnd
          | succ k' =>
            have hk : k' + 1 <
                (retry_target tEv outcomes sleeps elapsed (some d) n (i + 1)
                  (count_error c e).2).attempts := by omega
            have hrec := ih (i + 1) ((count_error c e).2) k' hk
            have hidx : i + 1 + k' = i + (k' + 1) := by omega
            rwa [hidx] at hrec

/-- When the loop ends in a failure (and the fuel covers the attempt bound),
that failure is the outcome of the last attempt performed, propagated
unchanged. -/
theorem retry_target_last_error :
    ∀ (fuel i : Nat) (c : _ErrorCounter),
      c.retries.toNat - c.error_count < fuel →
      ∀ e, (retry_target tEv outcomes sleeps elapsed dl fuel i c).result = .error e →
        1 ≤ (retry_target tEv outcomes sleeps elapsed dl fuel i c).attempts ∧
          outcomes (i + ((retry_target tEv outcomes sleeps elapsed dl fuel i c).attempts - 1))
            = some e := by
  intro fuel
  induction fuel with
  | zero => intro i c hf; exact absurd hf (by omega)
  | succ n ih =>
    intro i c hf e
    cases h0 : outcomes i with
    | none =>
      rw [retry_target_none tEv outcomes sleeps elapsed dl n i c h0]
      intro h
      simp at h
    | some e0 =>
      cases hp : (count_error c e0).1 with
      | false =>
        rw [retry_target_refuse tEv outcomes sleeps elapsed dl n i c e0 h0 hp]
        intro h
        simp only [Except.error.injEq] at h
        subst h
        exact ⟨le_refl 1, by simpa using h0⟩
      | true =>
        cases hd : deadlineStop elapsed sleeps dl i with
        | true =>
          rw [retry_target_stop tEv outcomes sleeps elapsed dl n i c e0 h0 hp hd]
          intro h
          simp only [Except.error.injEq] at h
          subst h
          exact ⟨le_refl 1, by simpa using h0⟩
        | false =>
          rw [retry_target_go tEv outcomes sleeps elapsed dl n i c e0 h0 hp hd]
          intro h
          simp only at h
          obtain ⟨-, hle, hc2⟩ := count_error_true_elim c e0 hp
          have hf' : (count_error c e0).2.retries.toNat -
              (count_error c e0).2.error_count < n := by
            rw [hc2]
            simp only
            omega
          obtain ⟨h1, h2⟩ := ih (i + 1) (count_error c e0).2 hf' e h
          refine ⟨by simp, ?_⟩
          have hidx : i + (((retry_target tEv outcomes sleeps elapsed dl n (i + 1)
              (count_error c e0).2).attempts + 1) - 1) =
              (i + 1) + ((retry_target tEv outcomes sleeps elapsed dl n (i + 1)
                (count_error c e0).2).attempts - 1) := by omega
          simp only
          rw [hidx]
          exact h2

end RetryLemmas

/-! ### Registration-before-submission and the registry -/

theorem submitCovered_nil : SubmitCovered [] := by
  intro p jid h
  simp at h

theorem submitCovered_cons (x : Event) (evs : List Event)
    (hx : ∀ jid, x ≠ Event.submitCall jid) (h : SubmitCovered evs) :
    SubmitCovered (x :: evs) := by
  intro p jid hp
  cases p with
  | zero =>
    simp at hp
    exact absurd hp (hx jid)
  | succ p' =>
    simp at hp
    obtain ⟨q, hq, hr⟩ := h p' jid hp
    exact ⟨q + 1, by omega, by simpa using hr⟩

theorem submitCovered_of_no_submit (l : List Event)
    (hl : ∀ x ∈ l, ∀ jid, x ≠ Event.submitCall jid) : SubmitCovered l := by
  induction l with
  | nil => exact submitCovered_nil
  | cons x xs ih =>
    exact submitCovered_cons x xs (hl x (by simp))
      (ih fun y hy => hl y (by simp [hy]))

theorem submitCovered_middle (m : List Event) (evs : List Event)
    (hm : ∀ x ∈ m, ∀ jid, x ≠ Event.submitCall jid) (h : SubmitCovered evs) :
    SubmitCovered (m ++ evs) := by
  induction m with
  | nil => simpa using h
  | cons x xs ih =>
    rw [List.cons_append]
    exact submitCovered_cons x (xs ++ evs) (hm x (by simp))
      (ih fun y hy => hm y (by simp [hy]))

theorem submitCovered_block (i : Nat) (evs : List Event) (h : SubmitCovered evs) :
    SubmitCovered (Event.register i :: Event.submitCall i :: evs) := by
  intro p jid hp
  match p with
  | 0 => simp at hp
  | 1 =>
    simp at hp
    subst hp
    exact ⟨0, by omega, by simp⟩
  | (p' + 2) =>
    simp at hp
    obtain ⟨q, hq, hr⟩ := h p' jid hp
    exact ⟨q + 2, by omega, by simpa using hr⟩

theorem reopen_no_submit (e : GError) :
    ∀ x ∈ reopen_conn_on_error e, ∀ jid, x ≠ Event.submitCall jid := by
  intro x hx jid
  unfold reopen_conn_on_error at hx
  split at hx
  · simp at hx
    rcases hx with h | h <;> subst h <;> simp
  · simp at hx

/-- In every run of `raw_execute`, each submission call is preceded by the
registration of the same job id: `fn` calls `generate_job_id` before
`client.query`, and the loop's other events never submit. -/
theorem raw_execute_submitCovered (outcomes : Nat → Option GError)
    (sleeps elapsed : Nat → ℚ) (dl : Option ℚ) :
    ∀ (fuel i : Nat) (c : _ErrorCounter),
      SubmitCovered
        (retry_target rawExecuteEvents outcomes sleeps elapsed dl fuel i c).events := by
  intro fuel
  induction fuel with
  | zero =>
    intro i c
    rw [retry_target_zero]
    exact submitCovered_nil
  | succ n ih =>
    intro i c
    cases h0 : outcomes i with
    | none =>
      rw [retry_target_none rawExecuteEvents outcomes sleeps elapsed dl n i c h0]
      exact submitCovered_block i [] submitCovered_nil
    | some e =>
      cases hp : (count_error c e).1 with
      | false =>
        rw [retry_target_refuse rawExecuteEvents outcomes sleeps elapsed dl n i c e h0 hp]
        exact submitCovered_block i [] submitCovered_nil
      | true =>
        cases hd : deadlineStop elapsed sleeps dl i with
        | true =>
          rw [retry_target_stop rawExecuteEvents outcomes sleeps elapsed dl n i c e h0 hp hd]
          simp only [rawExecuteEvents, List.cons_append, List.nil_append,
            List.append_assoc]
          exact submitCovered_block i _ (submitCovered_cons _ _ (by simp)
            (submitCovered_of_no_submit _ (reopen_no_submit e)))
        | false =>
          rw [retry_target_go rawExecuteEvents outcomes sleeps elapsed dl n i c e h0 hp hd]
          simp only [rawExecuteEvents, List.cons_append, List.nil_append,
            List.append_assoc, List.singleton_append]
          refine submitCovered_block i _ (submitCovered_cons _ _ (by simp) ?_)
          refine submitCovered_middle _ _ (reopen_no_submit e) ?_
          exact submitCovered_cons _ _ (by simp) (ih (i + 1) (count_error c e).2)

theorem registryOf_append (a b : List Event) :
    registryOf (a ++ b) = registryOf a ++ registryOf b := by
  simp [registryOf, List.filterMap_append]

theorem registryOf_reopen (e : GError) : registryOf (reopen_conn_on_error e) = [] := by
  unfold reopen_conn_on_error
  split <;> simp [registryOf]

/-- The registry built by a `raw_execute` run is exactly the fresh id of each
attempt performed, in attempt order. -/
theorem raw_execute_registry (outcomes : Nat → Option GError)
    (sleeps elapsed : Nat → ℚ) (dl : Option ℚ) :
    ∀ (fuel i : Nat) (c : _ErrorCounter),
      registryOf (retry_target rawExecuteEvents outcomes sleeps elapsed dl fuel i c).events
        = List.range' i
            (retry_target rawExecuteEvents outcomes sleeps elapsed dl fuel i c).attempts := by
  intro fuel
  induction fuel with
  | zero =>
    intro i c
    rw [retry_target_zero]
    simp [registryOf]
  | succ n ih =>
    intro i c
    cases h0 : outcomes i with
    | none =>
      rw [retry_target_none rawExecuteEvents outcomes sleeps elapsed dl n i c h0]
      simp [registryOf, rawExecuteEvents, List.range']
    | some e =>
      cases hp : (count_error c e).1 with
      | false =>
        rw [retry_target_refuse rawExecuteEvents outcomes sleeps elapsed dl n i c e h0 hp]
        simp [registryOf, rawExecuteEvents, List.range']
      | true =>
        cases hd : deadlineStop elapsed sleeps dl i with
        | true =>
          rw [retry_target_stop rawExecuteEvents outcomes sleeps elapsed dl n i c e h0 hp hd]
          simp only [registryOf_append]
          rw [registryOf_reopen]
          simp [registryOf, rawExecuteEvents, List.range'_one]
        | false =>
          rw [retry_target_go rawExecuteEvents outcomes sleeps elapsed dl n i c e h0 hp hd]
          simp only [registryOf_append]
          rw [registryOf_reopen, ih (i + 1) (count_error c e).2]
          simp [registryOf, rawExecuteEvents, List.range'_succ]

/-- Iterating `generate_job_id` from a fresh thread state yields the registry
`[0, 1, …, n-1]`. -/
theorem applyGenerate_iterate (n : Nat) :
    applyGenerate^[n] ⟨[], 0⟩ = ⟨List.range n, n⟩ := by
  induction n with
  | zero => rfl
  | succ m ih =>
    rw [Function.iterate_succ_apply', ih]
    simp [applyGenerate, generate_job_id, List.range_succ]

/-! ### The claims -/

/-- Claim C1, counterexample: the claim says that for every bad-request
failure the retryability predicate returns false; at this concrete
`BadRequest` error, `_is_retryable` returns true, because `BadRequest` is
listed in `RETRYABLE_ERRORS`. -/
theorem c1_badRequest_counterexample :
    _is_retryable (GError.badRequest [⟨"invalid", "Syntax error: unexpected end"⟩])
      = true := rfl

/-- Claim C1, amended: the error classifier treats a bad-request failure as
retryable, not fatal: `_is_retryable` returns true for every `BadRequest`
error, and with a positive retry budget the retry layer performs a second
attempt after a bad-request failure. -/
theorem c1_badRequest_amended (errs : List ErrItem) (sleeps elapsed : Nat → ℚ)
    (fuel : Nat) :
    _is_retryable (GError.badRequest errs) = true
    ∧ (retry_target (fun _ => [])
        (fun i => if i = 0 then some (GError.badRequest errs) else none)
        sleeps elapsed none (fuel + 2) 0 ⟨1, 0⟩).attempts = 2 := by
  refine ⟨rfl, ?_⟩
  rw [retry_target_go (fun _ => [])
    (fun i => if i = 0 then some (GError.badRequest errs) else none)
    sleeps elapsed none (fuel + 1) 0 ⟨1, 0⟩ (GError.badRequest errs) rfl rfl rfl]
  rw [retry_target_none (fun _ => [])
    (fun i => if i = 0 then some (GError.badRequest errs) else none)
    sleeps elapsed none fuel 1 (count_error ⟨1, 0⟩ (GError.badRequest errs)).2 rfl]

/-- Claim C2: in every run of `raw_execute`, each submission call for a job
id is strictly preceded in the trace by the registration of that id in the
thread's registry: registration happens-before submission. -/
theorem c2_register_before_submit (outcomes : Nat → Option GError)
    (sleeps elapsed : Nat → ℚ) (dl : Option ℚ) (retries : Int) (fuel : Nat)
    (p jid : Nat)
    (h : (raw_execute_run outcomes sleeps elapsed dl retries fuel).events[p]?
      = some (Event.submitCall jid)) :
    ∃ q, q < p ∧ (raw_execute_run outcomes sleeps elapsed dl retries fuel).events[q]?
      = some (Event.register jid) :=
  raw_execute_submitCovered outcomes sleeps elapsed dl fuel 0 ⟨retries, 0⟩ p jid h

theorem c2_register_before_submit_witness :
    ∃ q, q < 1 ∧ (raw_execute_run (fun _ => none) (fun _ => 0) (fun _ => 0)
      none 1 1).events[q]? = some (Event.register 0) :=
  c2_register_before_submit (fun _ => none) (fun _ => 0) (fun _ => 0) none 1 1 1 0 rfl

/-- Claim C3, the code evaluated at the failing input: a registered job id
with no corresponding remote job makes `client.cancel_job` raise `NotFound`;
the retry predicate refuses (`NotFound` is not retryable), `exception_handler`
catches it and `handle_error` raises `DbtDatabaseError` — `cancel_open`
raises instead of treating the not-found outcome as a no-op, and the sweep
stops before the remaining job ids. -/
theorem c3_cancel_notFound_raises :
    cancel_open_cancel_job 1 none [] "job-1" 5
        = .error (.dbtDatabaseError ("Not found: Job job-1"))
    ∧ cancel_open_thread_jobs 1 none [] 5 ["job-1", "job-2"]
        = .error (.dbtDatabaseError ("Not found: Job job-1")) :=
  ⟨rfl, rfl⟩

/-- Claim C4: when the wait for results exceeds the execution timeout, the
operation fails with a `TimeoutError` whose message interpolates the
configured timeout value, `_is_retryable` classifies it as non-retryable,
and the retry loop performs no further attempt and propagates it. -/
theorem c4_timeout_not_retried (s : QueryScript) (t : Option Int) (m : String)
    (sleeps elapsed : Nat → ℚ) (dl : Option ℚ) (retries : Int) (fuel : Nat)
    (hsub : s.submit = .ok ()) (hwait : s.wait = .error (.timeoutError m)) :
    _query_and_results s t = .error (.timeoutError (timeoutMsg t))
    ∧ timeoutMsg t = "Operation did not complete within the designated timeout of "
        ++ pyStrOptInt t ++ " seconds."
    ∧ _is_retryable (.timeoutError (timeoutMsg t)) = false
    ∧ retry_target (fun _ => []) (fun _ => some (.timeoutError (timeoutMsg t)))
        sleeps elapsed dl (fuel + 1) 0 ⟨retries, 0⟩
      = ⟨[], 1, .error (.timeoutError (timeoutMsg t))⟩ := by
  refine ⟨?_, rfl, rfl, ?_⟩
  · unfold _query_and_results
    rw [hsub, hwait]
  · exact retry_target_refuse (fun _ => [])
      (fun _ => some (.timeoutError (timeoutMsg t))) sleeps elapsed dl fuel 0
      ⟨retries, 0⟩ (.timeoutError (timeoutMsg t)) rfl
      (count_error_fst_false ⟨retries, 0⟩ (.timeoutError (timeoutMsg t)) rfl)

theorem c4_timeout_not_retried_witness :
    _query_and_results ⟨.ok (), .error (.timeoutError ("t/o"))⟩ (some 300)
        = .error (.timeoutError (timeoutMsg (some 300)))
    ∧ timeoutMsg (some 300)
        = "Operation did not complete within the designated timeout of "
          ++ pyStrOptInt (some 300) ++ " seconds."
    ∧ _is_retryable (.timeoutError (timeoutMsg (some 300))) = false
    ∧ retry_target (fun _ => []) (fun _ => some (.timeoutError (timeoutMsg (some 300))))
        (fun _ => 0) (fun _ => 0) none (1 + 1) 0 ⟨1, 0⟩
      = ⟨[], 1, .error (.timeoutError (timeoutMsg (some 300)))⟩ :=
  c4_timeout_not_retried ⟨.ok (), .error (.timeoutError ("t/o"))⟩ (some 300) "t/o"
    (fun _ => 0) (fun _ => 0) none 1 1 rfl rfl

/-- Claim C5: the retry executor performs at most `retries + 1` attempts,
continues to a further attempt only while the elapsed time plus the next
sleep stays within the deadline, and the failure that ends the run is the
outcome of the last attempt, propagated unchanged.  The loop itself
(`google.api_core.retry.retry_target`) is modelled from the spec; the
predicate and wiring are the source's. -/
theorem c5_retry_bounds (tEv : Nat → List Event) (outcomes : Nat → Option GError)
    (sleeps elapsed : Nat → ℚ) (dl : Option ℚ) (retries : Int) (fuel : Nat)
    (hfuel : retries.toNat < fuel) :
    (retry_target tEv outcomes sleeps elapsed dl fuel 0 ⟨retries, 0⟩).attempts
        ≤ retries.toNat + 1
    ∧ (∀ d, dl = some d →
        ∀ k, k + 1 < (retry_target tEv outcomes sleeps elapsed dl fuel 0
            ⟨retries, 0⟩).attempts →
          elapsed k + sleeps k ≤ d)
    ∧ (∀ e, (retry_target tEv outcomes sleeps elapsed dl fuel 0 ⟨retries, 0⟩).result
          = .error e →
        1 ≤ (retry_target tEv outcomes sleeps elapsed dl fuel 0 ⟨retries, 0⟩).attempts
        ∧ outcomes ((retry_target tEv outcomes sleeps elapsed dl fuel 0
            ⟨retries, 0⟩).attempts - 1) = some e) := by
  refine ⟨?_, ?_, ?_⟩
  · simpa using retry_target_attempts_bound tEv outcomes sleeps elapsed dl fuel 0
      ⟨retries, 0⟩
  · intro d hd k hk
    subst hd
    simpa using retry_target_deadline tEv outcomes sleeps elapsed d fuel 0
      ⟨retries, 0⟩ k hk
  · intro e he
    simpa using retry_target_last_error tEv outcomes sleeps elapsed dl fuel 0
      ⟨retries, 0⟩ (by simpa using hfuel) e he

theorem c5_retry_bounds_witness :
    (retry_target (fun _ => []) (fun _ => some (GError.serverError []))
        (fun _ => 0) (fun _ => 0) none 3 0 ⟨2, 0⟩).attempts ≤ (2 : Int).toNat + 1
    ∧ (∀ d, (none : Option ℚ) = some d →
        ∀ k, k + 1 < (retry_target (fun _ => []) (fun _ => some (GError.serverError []))
            (fun _ => 0) (fun _ => 0) none 3 0 ⟨2, 0⟩).attempts →
          (fun _ => (0 : ℚ)) k + (fun _ => (0 : ℚ)) k ≤ d)
    ∧ (∀ e, (retry_target (fun _ => []) (fun _ => some (GError.serverError []))
          (fun _ => 0) (fun _ => 0) none 3 0 ⟨2, 0⟩).result = .error e →
        1 ≤ (retry_target (fun _ => []) (fun _ => some (GError.serverError []))
            (fun _ => 0) (fun _ => 0) none 3 0 ⟨2, 0⟩).attempts
        ∧ (fun _ => some (GError.serverError []))
            ((retry_target (fun _ => []) (fun _ => some (GError.serverError []))
              (fun _ => 0) (fun _ => 0) none 3 0 ⟨2, 0⟩).attempts - 1) = some e) :=
  c5_retry_bounds (fun _ => []) (fun _ => some (GError.serverError []))
    (fun _ => 0) (fun _ => 0) none 2 3 (by decide)

/-- Claim C6: with a configured retry count of zero, `count_error` refuses
immediately: the wrapped operation runs exactly once, its first failure
propagates unchanged, and the trace shows no sleep, no retry logging and no
reopen. -/
theorem c6_zero_retries_single_attempt (outcomes : Nat → Option GError)
    (sleeps elapsed : Nat → ℚ) (dl : Option ℚ) (fuel : Nat) (e : GError)
    (h : outcomes 0 = some e) :
    retry_target (fun _ => []) outcomes sleeps elapsed dl (fuel + 1) 0 ⟨0, 0⟩
      = ⟨[], 1, .error e⟩ :=
  retry_target_refuse (fun _ => []) outcomes sleeps elapsed dl fuel 0 ⟨0, 0⟩ e h rfl

theorem c6_zero_retries_single_attempt_witness :
    retry_target (fun _ => []) (fun _ => some (GError.serverError []))
        (fun _ => 0) (fun _ => 0) none (4 + 1) 0 ⟨0, 0⟩
      = ⟨[], 1, .error (GError.serverError [])⟩ :=
  c6_zero_retries_single_attempt (fun _ => some (GError.serverError []))
    (fun _ => 0) (fun _ => 0) none 4 (GError.serverError []) rfl

/-- Claim C7: after a failure the predicate retried, the on-error hook runs
exactly once before the next attempt: a reopen-required failure (connection
reset, connection failure) produces exactly one close-then-open cycle in the
trace, and a plain-retryable failure produces no close and no open. -/
theorem c7_reopen_exactly_once (e : GError) (sleeps elapsed : Nat → ℚ) (fuel : Nat)
    (hr : _is_retryable e = true) :
    retry_target (fun _ => []) (fun i => if i = 0 then some e else none)
        sleeps elapsed none (fuel + 2) 0 ⟨1, 0⟩
      = ⟨Event.retryLog :: (reopen_conn_on_error e ++ [Event.sleep (sleeps 0)]), 2, .ok 1⟩
    ∧ (isinstanceReopenable e = true →
        reopen_conn_on_error e = [Event.closeConn, Event.openConn])
    ∧ (isinstanceReopenable e = false → reopen_conn_on_error e = []) := by
  refine ⟨?_, ?_, ?_⟩
  · have hp : (count_error ⟨1, 0⟩ e).1 = true := by
      simp [count_error, hr]
    rw [retry_target_go (fun _ => []) (fun i => if i = 0 then some e else none)
      sleeps elapsed none (fuel + 1) 0 ⟨1, 0⟩ e rfl hp rfl]
    rw [retry_target_none (fun _ => []) (fun i => if i = 0 then some e else none)
      sleeps elapsed none fuel 1 (count_error ⟨1, 0⟩ e).2 rfl]
    simp
  · intro h
    simp [reopen_conn_on_error, h]
  · intro h
    simp [reopen_conn_on_error, h]

theorem c7_reopen_exactly_once_witness :
    retry_target (fun _ => [])
        (fun i => if i = 0 then some (GError.connectionResetError ("reset")) else none)
        (fun _ => 0) (fun _ => 0) none (0 + 2) 0 ⟨1, 0⟩
      = ⟨Event.retryLog :: (reopen_conn_on_error (GError.connectionResetError ("reset"))
          ++ [Event.sleep 0]), 2, .ok 1⟩
    ∧ (isinstanceReopenable (GError.connectionResetError ("reset")) = true →
        reopen_conn_on_error (GError.connectionResetError ("reset"))
          = [Event.closeConn, Event.openConn])
    ∧ (isinstanceReopenable (GError.connectionResetError ("reset")) = false →
        reopen_conn_on_error (GError.connectionResetError ("reset")) = []) :=
  c7_reopen_exactly_once (GError.connectionResetError ("reset")) (fun _ => 0)
    (fun _ => 0) 0 rfl

/-- Claim C8: for a completed job of statement kind SELECT whose destination
table reports 5 rows and whose total bytes processed is 2048, `execute`
builds the message `"SELECT (5.0 rows, 2.0 KiB processed)"`. -/
theorem c8_select_message (j : QueryJobInfo)
    (hst : j.statement_type = "SELECT") (hrows : j.destination_num_rows = some 5)
    (hbytes : j.total_bytes_processed = some 2048) :
    (execute_response j).message = "SELECT (5.0 rows, 2.0 KiB processed)" := by
  show execute_message j = _
  unfold execute_message execute_code_rows
  rw [hst, hrows, hbytes]
  rfl

theorem c8_select_message_witness :
    (execute_response
        ⟨"SELECT", some 5, none, some 2048, none, none, none, none, none⟩).message
      = "SELECT (5.0 rows, 2.0 KiB processed)" :=
  c8_select_message ⟨"SELECT", some 5, none, some 2048, none, none, none, none, none⟩
    rfl rfl rfl

/-- Claim C9: for a nonzero byte count, the `bytes_processed` field of the
`dry_run` response holds the human-formatted string `format_bytes` produced,
while `execute` stores the raw integer count in that field. -/
theorem c9_dry_run_bytes_formatted (j : QueryJobInfo) (n : Int)
    (hb : j.total_bytes_processed = some n) (hn : n ≠ 0) :
    (dry_run_response j).bytes_processed
        = PyBytesVal.str (format_bytes_loop (.ofInt n) byteUnits)
    ∧ (execute_response j).bytes_processed = PyBytesVal.int n := by
  refine ⟨?_, ?_⟩
  · simp [dry_run_response, format_bytes, hb, hn]
  · simp [execute_response, hb]

theorem c9_dry_run_bytes_formatted_witness :
    (dry_run_response
        ⟨"SELECT", none, none, some 2048, none, none, none, none, none⟩).bytes_processed
        = PyBytesVal.str ("2.0 KiB")
    ∧ (execute_response
        ⟨"SELECT", none, none, some 2048, none, none, none, none, none⟩).bytes_processed
        = PyBytesVal.int 2048 :=
  c9_dry_run_bytes_formatted
    ⟨"SELECT", none, none, some 2048, none, none, none, none, none⟩ 2048 rfl (by decide)

/-- Claim C10: every attempt of `raw_execute` regenerates and registers a
fresh job id: after a run of `n` attempts the thread's registry holds
exactly the `n` ids `0, …, n-1` in attempt order (also the ids of failed
attempts — nothing is ever removed), they are pairwise distinct, and the
registry coincides with `n` iterated `generate_job_id` calls from a fresh
thread state. -/
theorem c10_fresh_id_per_attempt (outcomes : Nat → Option GError)
    (sleeps elapsed : Nat → ℚ) (dl : Option ℚ) (retries : Int) (fuel : Nat) :
    registryOf (raw_execute_run outcomes sleeps elapsed dl retries fuel).events
        = List.range (raw_execute_run outcomes sleeps elapsed dl retries fuel).attempts
    ∧ (registryOf (raw_execute_run outcomes sleeps elapsed dl retries fuel).events).Nodup
    ∧ applyGenerate^[(raw_execute_run outcomes sleeps elapsed dl retries fuel).attempts]
        ⟨[], 0⟩
      = ⟨registryOf (raw_execute_run outcomes sleeps elapsed dl retries fuel).events,
          (raw_execute_run outcomes sleeps elapsed dl retries fuel).attempts⟩ := by
  unfold raw_execute_run
  have hreg := raw_execute_registry outcomes sleeps elapsed dl fuel 0 ⟨retries, 0⟩
  rw [hreg, ← List.range_eq_range']
  exact ⟨rfl, List.nodup_range _, applyGenerate_iterate _⟩

end DbtBigQuery
